import Mathlib

/-!
Shallow embedding of `pympress/ui.py` (the `UI` class of this pympress fork)
and verification of its specification.

Machine integers are modelled as `Int`/`Nat`; wall-clock instants are `Int`
(seconds for the presentation timer, milliseconds for key-event timestamps,
matching the units each source comparison uses).  Fallible operations return
`Option`/`Except`.
-/

namespace Pympress

/-- Module-level constant of ui.py: "regular" PDF file (without notes).
The spec calls this page variant `Full`. -/
def PDF_REGULAR : Nat := 0

/-- Module-level constant of ui.py: content page (left side) of a PDF file
with notes.  The spec calls this page variant `ContentHalf`. -/
def PDF_CONTENT_PAGE : Nat := 1

/-- Module-level constant of ui.py: notes page (right side) of a PDF file
with notes.  The spec calls this page variant `NotesHalf`. -/
def PDF_NOTES_PAGE : Nat := 2

/-- Python `range(a, b)` with step 1: `[a, a+1, ..., b-1]`, empty when `b ≤ a`. -/
def pyRange (a b : Nat) : List Nat := List.range' a (b - a)

/-- Python `range(a, b, -1)`: `[a, a-1, ..., b+1]`, empty when `a ≤ b`. -/
def pyRangeDown (a b : Nat) : List Nat := (List.range' (b + 1) (a - b)).reverse

/-- The prerender loop at the end of `UI.on_page_change` (ui.py, lines 393-398):
`page_max = min(self.doc.pages_number(), cur + 5)`,
`page_min = max(0, cur - 2)`, and the pages passed to `self.cache.prerender`
are `range(cur+1, page_max) + range(cur, page_min, -1)`, in iteration order.
(`max 0 (cur - 2)` on `Nat` agrees with Python's `max(0, cur - 2)` on
integers, both yielding `0` whenever `cur < 2`.) -/
def prerender_pages (cur pages_number : Nat) : List Nat :=
  let page_max := min pages_number (cur + 5)
  let page_min := max 0 (cur - 2)
  pyRange (cur + 1) page_max ++ pyRangeDown cur page_min

/-- The three drawing areas of the UI, named by their `set_name` identifiers. -/
inductive Widget where
  | c_da
  | p_da_cur
  | p_da_next
deriving DecidableEq

/-- Page index drawn by `UI.on_expose` for each widget when the document's
shared cursor is at `current_page` (ui.py, lines 416-422): both branches call
`self.doc.current_page()` — the `self.doc.next_page()` call for `p_da_next` is
commented out in this fork.  `doc.current_page()` is the page handle at the
shared cursor (spec §6), so only its index is modelled. -/
def expose_page (w : Widget) (current_page : Nat) : Nat :=
  match w with
  | .c_da => current_page
  | .p_da_cur => current_page
  | .p_da_next => current_page

/-- The widget type (page variant) registered in the pixbuf cache for each of
the three drawing areas. -/
structure WidgetTypes where
  c_da : Nat
  p_da_cur : Nat
  p_da_next : Nat
deriving DecidableEq

/-- The mutable `UI` attributes touched by the verified operations:
`notes_mode`, the per-widget cache types, and the timer state
(`paused`, `start_time`, `delta`). -/
structure UIState where
  notes_mode : Bool
  widget_types : WidgetTypes
  paused : Bool
  start_time : Int
  delta : Int
deriving DecidableEq

/-- State part of `UI.update_time` (ui.py, lines 705-707): recomputes
`delta = now - start_time` unless paused.  Label formatting is `elapsed_text`. -/
def update_time (now : Int) (s : UIState) : UIState :=
  if s.paused then s else { s with delta := now - s.start_time }

/-- Python `"%02d" % n`: decimal representation zero-padded to width 2. -/
def fmt02 (n : Int) : String :=
  if 0 ≤ n ∧ n < 10 then "0" ++ toString n else toString n

/-- The elapsed-time text set by `UI.update_time` (ui.py, lines 708-710):
`"%02d:%02d" % (int(self.delta/60), int(self.delta%60))`, with `" (pause)"`
appended while paused.  Python's `int()` truncation of the float quotient
agrees with flooring `Int` division for the non-negative deltas arising here. -/
def elapsed_text (s : UIState) : String :=
  let base := fmt02 (s.delta / 60) ++ ":" ++ fmt02 (s.delta % 60)
  if s.paused then base ++ " (pause)" else base

/-- `UI.switch_pause` (ui.py, lines 718-725): unpause by rebasing
`start_time = now - delta`, pause by setting the flag; both end with an
`update_time` call. -/
def switch_pause (now : Int) (s : UIState) : UIState :=
  update_time now
    (if s.paused then { s with start_time := now - s.delta, paused := false }
     else { s with paused := true })

/-- `UI.reset_timer` (ui.py, lines 728-731): `start_time = now`, then
`update_time`. -/
def reset_timer (now : Int) (s : UIState) : UIState :=
  update_time now { s with start_time := now }

/-- The timer fragment of `UI.on_page_change` (ui.py, lines 379-383): when
`unpause` holds it clears `paused` and sets `start_time = now` only when
`start_time == 0`; otherwise it changes nothing. -/
def on_page_change_timer (unpause : Bool) (now : Int) (s : UIState) : UIState :=
  if unpause then
    { s with paused := false,
             start_time := if s.start_time = 0 then now else s.start_time }
  else s

/-- `UI.switch_mode` (ui.py, lines 801-816): flips `notes_mode`, reassigns the
three cached widget types via `cache.set_widget_type`, then calls
`self.on_page_change(False)` — whose only effect on this state is the
`unpause=False` timer fragment. -/
def switch_mode (now : Int) (s : UIState) : UIState :=
  let s' :=
    if s.notes_mode then
      { s with notes_mode := false,
               widget_types := ⟨PDF_REGULAR, PDF_REGULAR, PDF_REGULAR⟩ }
    else
      { s with notes_mode := true,
               widget_types := ⟨PDF_CONTENT_PAGE, PDF_NOTES_PAGE, PDF_CONTENT_PAGE⟩ }
  on_page_change_timer false now s'

/-- The digit-aggregation attributes of `UI`: the pending buffer
`s_go_page_num` and `old_event_time`. -/
structure JumpState where
  s_go_page_num : String
  old_event_time : Int
deriving DecidableEq

/-- Decimal value of a digit character (left inverse of `Nat.digitChar` on
digits below 10). -/
def digit_val (c : Char) : Nat := c.toNat - 48

/-- Value of a decimal digit string (most-significant first) on top of an
accumulator: how Python reads an integer literal back from its digits. -/
def decode_digits (a : Nat) : List Char → Nat
  | [] => a
  | c :: cs => decode_digits (10 * a + digit_val c) cs

/-- Python `str.isdigit()`: non-empty and every character is a decimal digit. -/
def isdigit (s : String) : Bool := !s.data.isEmpty && s.data.all Char.isDigit

/-- Python `int` applied to a digit-only string (the only use in
`select_page`, guarded by `isdigit`). -/
def int_of_digits (s : String) : Int := (decode_digits 0 s.data : Nat)

/-- `UI.select_page` (ui.py, lines 818-834).  Returns the new state and the
argument of the `self.doc.goto` call, when one is made. -/
def select_page (s : JumpState) (event_time : Int) (event_string : String)
    (go : Bool) : JumpState × Option Int :=
  if go then
    (⟨"", event_time⟩,
     if isdigit s.s_go_page_num then some (int_of_digits s.s_go_page_num - 1)
     else none)
  else
    let diff := event_time - s.old_event_time
    (⟨if 0 ≤ diff ∧ diff < 1000 then s.s_go_page_num ++ event_string
      else event_string, event_time⟩, none)

/-- Strip leading and trailing whitespace from a character list (what Python's
`int` tolerates around the number). -/
def py_strip (l : List Char) : List Char :=
  ((l.dropWhile Char.isWhitespace).reverse.dropWhile Char.isWhitespace).reverse

/-- Python 2 `int(str)` on the characters of the string: optional surrounding
whitespace, an optional sign, then a non-empty run of decimal digits; `none`
models the `ValueError`. -/
def py_int_chars (l : List Char) : Option Int :=
  match py_strip l with
  | [] => none
  | c :: cs =>
    if c = '-' then
      if !cs.isEmpty && cs.all Char.isDigit then some (-(decode_digits 0 cs : Int))
      else none
    else if c = '+' then
      if !cs.isEmpty && cs.all Char.isDigit then some ((decode_digits 0 cs : Nat))
      else none
    else
      if (c :: cs).all Char.isDigit then some ((decode_digits 0 (c :: cs) : Nat))
      else none

/-- Python 2 `int(str)`. -/
def py_int (s : String) : Option Int := py_int_chars s.data

/-- Python `text.split('/')[0]`: the characters before the first `'/'` (the
whole text when there is none). -/
def before_slash (s : String) : List Char := s.data.takeWhile (fun c => c ≠ '/')

/-- Keys handled by the entry branch of `UI.on_label_event`. -/
inductive LabelKey where
  | ret
  | escape
deriving DecidableEq

/-- Observable outcome of the entry branch of `UI.on_label_event`: the
resulting current page, the argument of the `doc.goto` call when one is made,
whether the invalid-number diagnostic was printed, and whether the label was
restored in place of the entry. -/
structure LabelResult where
  current_page : Nat
  goto_arg : Option Nat
  logged : Bool
  label_restored : Bool
deriving DecidableEq

/-- The key-release branch of `UI.on_label_event` (ui.py, lines 597-623), for
a document on 0-based page `cur` out of `pages_number` pages.  On Return the
label is restored, then `n = int(text.split('/')[0])` with fallback
`current+1` on `ValueError` (which also prints the diagnostic), then `n -= 1`;
if `n` differs from the current page it is clamped (`n <= 0` to `0`,
`n >= pages_number` to `pages_number - 1`) and passed to `self.doc.goto`,
which moves the cursor there (spec §4.2).  On Escape the label is restored and
nothing else happens. -/
def on_label_event (key : LabelKey) (text : String) (cur pages_number : Nat) :
    LabelResult :=
  match key with
  | .escape => ⟨cur, none, false, true⟩
  | .ret =>
    let parsed := py_int_chars (before_slash text)
    let n0 : Int :=
      match parsed with
      | some v => v
      | none => (cur : Int) + 1
    let n := n0 - 1
    if n ≠ (cur : Int) then
      let n' : Int :=
        if n ≤ 0 then 0
        else if (pages_number : Int) ≤ n then (pages_number : Int) - 1 else n
      ⟨n'.toNat, some n'.toNat, parsed.isNone, true⟩
    else ⟨cur, none, parsed.isNone, true⟩

/-- The clamp applied by `on_label_event` before navigating: into
`[0, pages_number - 1]`. -/
def clamp_index (n : Int) (pages_number : Nat) : Nat :=
  (if n ≤ 0 then 0
   else if (pages_number : Int) ≤ n then (pages_number : Int) - 1 else n).toNat

/-- `UI.render_page` (ui.py, lines 630-661) for a widget whose backing GDK
window is `win` (`none` while the widget is unrealized, otherwise its pixel
size).  Returns the painted size, or `none` when the render was skipped by the
`if widget.window is None: return` guard (lines 646-648). -/
def render_page (win : Option (Nat × Nat)) : Option (Nat × Nat) :=
  match win with
  | none => none
  | some wh => some wh

/-- The drawing phase of `UI.on_expose` (ui.py, lines 431-448), given the
cached pixbuf `pb` for the widget's page (`none` on a cache miss) and the
backing window `win`.  On a miss it calls `render_page` (which skips when the
window is absent) and then unconditionally evaluates
`widget.window.get_size()` and grabs a window-sized pixbuf from
`widget.window` to store in the cache (lines 441-444); on a hit it draws via
`widget.window.new_gc()` (lines 447-448).  Either dereference of an absent
window raises an `AttributeError`.  The `ok` payload is the pixbuf stored into
the cache, if any. -/
def on_expose_draw (pb : Option (Nat × Nat)) (win : Option (Nat × Nat)) :
    Except String (Option (Nat × Nat)) :=
  match pb with
  | none =>
    let _skipped := render_page win
    match win with
    | none => .error "AttributeError"
    | some wh => .ok (some wh)
  | some _ =>
    match win with
    | none => .error "AttributeError"
    | some _ => .ok none

/-- Python `"%d/%d" % (a, b)` as built by `UI.update_page_numbers`. -/
def page_label (a b : Nat) : String := Nat.repr a ++ "/" ++ Nat.repr b

/-- `UI.update_page_numbers` (ui.py, lines 675-689): the pair of texts put
inside the `<span font='36'>` markup of `label_cur` and `label_next`.  In this
fork the overwrite on line 685 uses `cur_nb+1` — the `cur_nb+2` version is
commented out. -/
def update_page_numbers (cur_nb pages_number : Nat) : String × String :=
  let cur := page_label (cur_nb + 1) pages_number
  let nxt :=
    if cur_nb + 2 ≤ pages_number then page_label (cur_nb + 1) pages_number
    else "--"
  (cur, nxt)

/-! ### Reading decimal representations back

`UI.update_page_numbers` emits `"%d/%d"` strings; to reason about which page
number such a string displays we show that `Nat.repr` can be decoded back, so
it is injective. -/

theorem decode_digits_cons (a : Nat) (c : Char) (cs : List Char) :
    decode_digits a (c :: cs) = decode_digits (10 * a + digit_val c) cs := rfl

theorem decode_digits_append (a : Nat) (l1 l2 : List Char) :
    decode_digits a (l1 ++ l2) = decode_digits (decode_digits a l1) l2 := by
  induction l1 generalizing a with
  | nil => rfl
  | cons c cs ih =>
    rw [List.cons_append, decode_digits_cons, decode_digits_cons, ih]

theorem toDigitsCore_succ (f n : Nat) (ds : List Char) :
    Nat.toDigitsCore 10 (f + 1) n ds =
      if n / 10 = 0 then Nat.digitChar (n % 10) :: ds
      else Nat.toDigitsCore 10 f (n / 10) (Nat.digitChar (n % 10) :: ds) := rfl

theorem toDigitsCore_append (f n : Nat) (ds : List Char) :
    Nat.toDigitsCore 10 f n ds = Nat.toDigitsCore 10 f n [] ++ ds := by
  induction f generalizing n ds with
  | zero => rfl
  | succ f ih =>
    rw [toDigitsCore_succ, toDigitsCore_succ]
    by_cases h : n / 10 = 0
    · rw [if_pos h, if_pos h]; rfl
    · rw [if_neg h, if_neg h, ih (n / 10) (Nat.digitChar (n % 10) :: ds),
        ih (n / 10) [Nat.digitChar (n % 10)], List.append_assoc]
      rfl

theorem digit_val_digitChar (d : Nat) (h : d < 10) :
    digit_val (Nat.digitChar d) = d := by
  interval_cases d <;> decide

theorem decode_toDigitsCore (f : Nat) :
    ∀ n, n < 10 ^ f → decode_digits 0 (Nat.toDigitsCore 10 f n []) = n := by
  induction f with
  | zero =>
    intro n h
    have hn : n = 0 := by simpa using h
    subst hn; rfl
  | succ f ih =>
    intro n h
    have hmod : n % 10 < 10 := Nat.mod_lt n (by norm_num)
    rw [toDigitsCore_succ]
    by_cases h0 : n / 10 = 0
    · rw [if_pos h0, decode_digits_cons]
      show 10 * 0 + digit_val (Nat.digitChar (n % 10)) = n
      rw [digit_val_digitChar _ hmod]
      omega
    · rw [if_neg h0, toDigitsCore_append, decode_digits_append]
      have hpow : (10 : Nat) ^ (f + 1) = 10 ^ f * 10 := pow_succ 10 f
      have hdiv : n / 10 < 10 ^ f := Nat.div_lt_of_lt_mul (by omega)
      rw [ih (n / 10) hdiv, decode_digits_cons, digit_val_digitChar _ hmod]
      show 10 * (n / 10) + n % 10 = n
      omega

theorem decode_toDigits (n : Nat) : decode_digits 0 (Nat.toDigits 10 n) = n := by
  have h : n < 10 ^ (n + 1) :=
    lt_of_lt_of_le (Nat.lt_pow_self (by norm_num) n)
      (Nat.pow_le_pow_right (by norm_num) (Nat.le_succ n))
  exact decode_toDigitsCore (n + 1) n h

theorem nat_repr_injective (a b : Nat) (h : Nat.repr a = Nat.repr b) : a = b := by
  have hd : Nat.toDigits 10 a = Nat.toDigits 10 b := congrArg String.data h
  calc a = decode_digits 0 (Nat.toDigits 10 a) := (decode_toDigits a).symm
    _ = decode_digits 0 (Nat.toDigits 10 b) := by rw [hd]
    _ = b := decode_toDigits b

theorem toDigits_ne_nil (n : Nat) : Nat.toDigits 10 n ≠ [] := by
  show Nat.toDigitsCore 10 (n + 1) n [] ≠ []
  rw [toDigitsCore_succ]
  by_cases h : n / 10 = 0
  · rw [if_pos h]; exact List.cons_ne_nil _ _
  · rw [if_neg h, toDigitsCore_append]; simp

theorem repr_length_pos (n : Nat) : 0 < (Nat.repr n).length := by
  show 0 < (Nat.toDigits 10 n).length
  exact List.length_pos.mpr (toDigits_ne_nil n)

theorem page_label_ne_dashes (a b : Nat) : page_label a b ≠ "--" := by
  intro h
  have hlen := congrArg String.length h
  have ha := repr_length_pos a
  have hb := repr_length_pos b
  have h1 : ("/" : String).length = 1 := rfl
  have h2 : ("--" : String).length = 2 := rfl
  simp only [page_label, String.length_append] at hlen
  omega

theorem page_label_inj_left (a a' b : Nat)
    (h : page_label a b = page_label a' b) : a = a' := by
  have hd := congrArg String.data h
  simp only [page_label, String.data_append] at hd
  have h1 := List.append_cancel_right hd
  have h2 := List.append_cancel_right h1
  exact nat_repr_injective a a' (String.ext h2)

/-! ### The claims -/

/-- C1: evaluating the prerender loop of `on_page_change` at the claimed
instance.  After a change to page index 10 of a 50-page document the pages
passed to `cache.prerender` are `[11, 12, 13, 14, 10, 9]` — page 8 is never
prerendered, although the claim (and the loop's own comment, "Prerender the 4
next pages and the 2 previous ones") includes it; pages 15 and 7 are indeed
absent. -/
theorem prerender_pages_at_10_of_50 :
    prerender_pages 10 50 = [11, 12, 13, 14, 10, 9] ∧
    8 ∉ prerender_pages 10 50 ∧
    15 ∉ prerender_pages 10 50 ∧
    7 ∉ prerender_pages 10 50 := by decide

/-- C2 (counterexample): with the document cursor on page 10, the page
rendered to the next-slide drawing area `p_da_next` by `on_expose` is page 10
itself, not page 11 as the claim states. -/
theorem expose_page_next_not_lookahead :
    expose_page .p_da_next 10 = 10 ∧ ¬ expose_page .p_da_next 10 = 10 + 1 := by
  decide

/-- C2 (amended): on every redraw each surface — including the presenter
next-slide surface — renders the document's current page; in this fork the
next-slide preview mirrors the current page instead of looking ahead. -/
theorem expose_page_eq_current (w : Widget) (current_page : Nat) :
    expose_page w current_page = current_page := by
  cases w <;> rfl

/-- C3: one `switch_mode` call flips `notes_mode`; turning notes mode on sets
the cached widget types to (`PDF_CONTENT_PAGE`, `PDF_NOTES_PAGE`,
`PDF_CONTENT_PAGE`) for (`c_da`, `p_da_cur`, `p_da_next`) — the spec's
(ContentHalf, NotesHalf, ContentHalf) — and turning it off sets all three to
`PDF_REGULAR` (Full); the redraw runs through `on_page_change(False)`, leaving
`paused` (and `start_time`) unchanged. -/
theorem switch_mode_spec (now : Int) (s : UIState) :
    (switch_mode now s).notes_mode = !s.notes_mode ∧
    (switch_mode now s).widget_types =
      (if s.notes_mode then ⟨PDF_REGULAR, PDF_REGULAR, PDF_REGULAR⟩
       else ⟨PDF_CONTENT_PAGE, PDF_NOTES_PAGE, PDF_CONTENT_PAGE⟩ : WidgetTypes) ∧
    (switch_mode now s).paused = s.paused ∧
    (switch_mode now s).start_time = s.start_time := by
  cases s with
  | mk nm wt p st d => cases nm <;> simp [switch_mode, on_page_change_timer]

/-- C4: `switch_pause` resumes by rebasing `start_time = now - delta` and
clearing `paused` (the closing `update_time` recomputes `delta` to the same
frozen value), and pauses by setting `paused`, freezing `delta`; hence in the
run-10s / pause / wait-5s / resume scenario the elapsed display right after
resume reads 00:10 — ten seconds, not fifteen. -/
theorem switch_pause_spec (now t0 : Int) (s : UIState) (w : WidgetTypes) :
    (switch_pause now s =
      if s.paused then { s with start_time := now - s.delta, paused := false }
      else { s with paused := true }) ∧
    ((switch_pause (t0 + 15)
        (update_time (t0 + 15)
          (switch_pause (t0 + 10)
            (update_time (t0 + 10) ⟨false, w, false, t0, 0⟩)))).delta = 10 ∧
      (switch_pause (t0 + 15)
        (update_time (t0 + 15)
          (switch_pause (t0 + 10)
            (update_time (t0 + 10) ⟨false, w, false, t0, 0⟩)))).paused = false ∧
      elapsed_text (switch_pause (t0 + 15)
        (update_time (t0 + 15)
          (switch_pause (t0 + 10)
            (update_time (t0 + 10) ⟨false, w, false, t0, 0⟩)))) = "00:10" ∧
      ¬ (switch_pause (t0 + 15)
        (update_time (t0 + 15)
          (switch_pause (t0 + 10)
            (update_time (t0 + 10) ⟨false, w, false, t0, 0⟩)))).delta = 15) := by
  have h1 : update_time (t0 + 10) ⟨false, w, false, t0, 0⟩
      = ⟨false, w, false, t0, 10⟩ := by
    simp [update_time]
  have h2 : switch_pause (t0 + 10) (⟨false, w, false, t0, 10⟩ : UIState)
      = ⟨false, w, true, t0, 10⟩ := by
    simp [switch_pause, update_time]
  have h3 : update_time (t0 + 15) (⟨false, w, true, t0, 10⟩ : UIState)
      = ⟨false, w, true, t0, 10⟩ := by
    simp [update_time]
  have h4 : switch_pause (t0 + 15) (⟨false, w, true, t0, 10⟩ : UIState)
      = ⟨false, w, false, t0 + 5, 10⟩ := by
    simp [switch_pause, update_time]
    omega
  constructor
  · cases s with
    | mk nm wt p st d =>
      cases p <;> simp [switch_pause, update_time]
  · rw [h1, h2, h3, h4]
    refine ⟨rfl, rfl, ?_, by simp⟩
    simp only [elapsed_text, fmt02]
    decide

/-- C5 (counterexample): resetting the timer while paused with 100 seconds
accumulated, at time 1000: `start_time` is set, but after the following tick
(also at time 1000) the delta is still 100 and the elapsed label reads
"01:40 (pause)", not "00:00". -/
theorem reset_timer_paused_not_zeroed :
    (update_time 1000 (reset_timer 1000 ⟨false, ⟨0, 0, 0⟩, true, 0, 100⟩)).delta
      = 100 ∧
    elapsed_text
      (update_time 1000 (reset_timer 1000 ⟨false, ⟨0, 0, 0⟩, true, 0, 100⟩))
      = "01:40 (pause)" ∧
    ¬ elapsed_text
      (update_time 1000 (reset_timer 1000 ⟨false, ⟨0, 0, 0⟩, true, 0, 100⟩))
      = "00:00" := by decide

/-- C5 (amended): `reset_timer` sets `start_time = now` in every state; on the
next tick at time `t` the delta is recomputed to `t - now` — and so the
display reads 00:00 within tick granularity — only when the timer is running;
while paused, `delta` stays frozen (the display keeps the old elapsed value
until the timer is resumed). -/
theorem reset_timer_spec (now t : Int) (s : UIState) :
    (reset_timer now s).start_time = now ∧
    (s.paused = true → (update_time t (reset_timer now s)).delta = s.delta) ∧
    (s.paused = false → (update_time t (reset_timer now s)).delta = t - now) ∧
    (s.paused = false →
      elapsed_text (update_time now (reset_timer now s)) = "00:00") := by
  cases s with
  | mk nm wt p st d =>
    cases p <;> simp [reset_timer, update_time, elapsed_text, fmt02]
    decide

/-- C5 (amended) witness at a concrete running state. -/
theorem reset_timer_spec_witness :
    (reset_timer 50 ⟨false, ⟨0, 0, 0⟩, false, 3, 7⟩).start_time = 50 ∧
    elapsed_text
      (update_time 50 (reset_timer 50 ⟨false, ⟨0, 0, 0⟩, false, 3, 7⟩))
      = "00:00" :=
  ⟨(reset_timer_spec 50 50 ⟨false, ⟨0, 0, 0⟩, false, 3, 7⟩).1,
   (reset_timer_spec 50 50 ⟨false, ⟨0, 0, 0⟩, false, 3, 7⟩).2.2.2 rfl⟩

/-- C6: a digit event appends to the pending buffer exactly when its gap since
the last event satisfies `0 ≤ gap < 1000` ms and otherwise resets the buffer
to that digit, updating `old_event_time` either way; the jump trigger
navigates to `int(buffer) - 1` exactly when the buffer is non-empty and
numeric and clears it regardless; so digits "1","2","3" with small gaps
followed by the trigger go to index 122, while a ≥ 1000 ms gap after "1"
leaves only "23" to commit, going to index 22. -/
theorem select_page_spec (s : JumpState) (t1 t2 t3 t4 : Int) :
    (∀ time str, select_page s time str false =
      (⟨if 0 ≤ time - s.old_event_time ∧ time - s.old_event_time < 1000
         then s.s_go_page_num ++ str else str, time⟩, none)) ∧
    (∀ time, select_page s time "" true =
      (⟨"", time⟩,
       if isdigit s.s_go_page_num then some (int_of_digits s.s_go_page_num - 1)
       else none)) ∧
    (¬ (0 ≤ t1 - s.old_event_time ∧ t1 - s.old_event_time < 1000) →
      0 ≤ t2 - t1 → t2 - t1 < 1000 → 0 ≤ t3 - t2 → t3 - t2 < 1000 →
      (select_page (select_page (select_page (select_page s t1 "1" false).1
          t2 "2" false).1 t3 "3" false).1 t4 "" true).2 = some 122) ∧
    (¬ (0 ≤ t1 - s.old_event_time ∧ t1 - s.old_event_time < 1000) →
      1000 ≤ t2 - t1 → 0 ≤ t3 - t2 → t3 - t2 < 1000 →
      (select_page (select_page (select_page (select_page s t1 "1" false).1
          t2 "2" false).1 t3 "3" false).1 t4 "" true).2 = some 22) := by
  refine ⟨fun time str => rfl, fun time => rfl, ?_, ?_⟩
  · intro h1 h2a h2b h3a h3b
    have e1 : (select_page s t1 "1" false).1 = ⟨"1", t1⟩ := by
      show (⟨if 0 ≤ t1 - s.old_event_time ∧ t1 - s.old_event_time < 1000
        then s.s_go_page_num ++ "1" else "1", t1⟩ : JumpState) = ⟨"1", t1⟩
      rw [if_neg h1]
    rw [e1]
    have e2 : (select_page (⟨"1", t1⟩ : JumpState) t2 "2" false).1
        = ⟨"1" ++ "2", t2⟩ := by
      show (⟨if 0 ≤ t2 - t1 ∧ t2 - t1 < 1000
        then "1" ++ "2" else "2", t2⟩ : JumpState) = ⟨"1" ++ "2", t2⟩
      rw [if_pos (And.intro h2a h2b)]
    rw [e2]
    have e3 : (select_page (⟨"1" ++ "2", t2⟩ : JumpState) t3 "3" false).1
        = ⟨("1" ++ "2") ++ "3", t3⟩ := by
      show (⟨if 0 ≤ t3 - t2 ∧ t3 - t2 < 1000
        then ("1" ++ "2") ++ "3" else "3", t3⟩ : JumpState)
        = ⟨("1" ++ "2") ++ "3", t3⟩
      rw [if_pos (And.intro h3a h3b)]
    rw [e3]
    show (if isdigit (("1" ++ "2") ++ "3")
      then some (int_of_digits (("1" ++ "2") ++ "3") - 1) else none) = some 122
    decide
  · intro h1 h2 h3a h3b
    have e1 : (select_page s t1 "1" false).1 = ⟨"1", t1⟩ := by
      show (⟨if 0 ≤ t1 - s.old_event_time ∧ t1 - s.old_event_time < 1000
        then s.s_go_page_num ++ "1" else "1", t1⟩ : JumpState) = ⟨"1", t1⟩
      rw [if_neg h1]
    rw [e1]
    have hgap : ¬ (0 ≤ t2 - t1 ∧ t2 - t1 < 1000) := by omega
    have e2 : (select_page (⟨"1", t1⟩ : JumpState) t2 "2" false).1
        = ⟨"2", t2⟩ := by
      show (⟨if 0 ≤ t2 - t1 ∧ t2 - t1 < 1000
        then "1" ++ "2" else "2", t2⟩ : JumpState) = ⟨"2", t2⟩
      rw [if_neg hgap]
    rw [e2]
    have e3 : (select_page (⟨"2", t2⟩ : JumpState) t3 "3" false).1
        = ⟨"2" ++ "3", t3⟩ := by
      show (⟨if 0 ≤ t3 - t2 ∧ t3 - t2 < 1000
        then "2" ++ "3" else "3", t3⟩ : JumpState) = ⟨"2" ++ "3", t3⟩
      rw [if_pos (And.intro h3a h3b)]
    rw [e3]
    show (if isdigit ("2" ++ "3")
      then some (int_of_digits ("2" ++ "3") - 1) else none) = some 22
    decide

/-- C6 witness: concrete timestamps 5000/5100/5200 ms (gaps below the
timeout) with the trigger at 5300 ms navigate to index 122; with the second
digit delayed to 6100 ms (gap ≥ 1000 ms) only "23" commits, to index 22. -/
theorem select_page_spec_witness :
    (select_page (select_page (select_page
        (select_page ⟨"", -1000000⟩ 5000 "1" false).1
        5100 "2" false).1 5200 "3" false).1 5300 "" true).2 = some 122 ∧
    (select_page (select_page (select_page
        (select_page ⟨"", -1000000⟩ 5000 "1" false).1
        6100 "2" false).1 6200 "3" false).1 6300 "" true).2 = some 22 :=
  ⟨(select_page_spec ⟨"", -1000000⟩ 5000 5100 5200 5300).2.2.1
    (by decide) (by decide) (by decide) (by decide) (by decide),
   (select_page_spec ⟨"", -1000000⟩ 5000 6100 6200 6300).2.2.2
    (by decide) (by decide) (by decide) (by decide)⟩

/-- C7 (counterexample): committing the prefilled text "5/50" while on 0-based
page 4 (the displayed page, "5/50") parses successfully to 5, yet no `goto`
call is made — the code skips the clamp-and-goto entirely when `n` equals the
current page — contradicting "... and calls goto with it". -/
theorem on_label_event_no_goto_on_same_page :
    py_int_chars (before_slash "5/50") = some 5 ∧
    (on_label_event .ret "5/50" 4 50).goto_arg = none := by decide

/-- C7 (amended): on commit, the segment of the entry text before the first
'/' is parsed as an integer.  When parsing succeeds with value `v`, the
resulting current page is `v - 1` clamped into `[0, pages_number - 1]`, and
`goto` is called with that clamped index exactly when `v - 1` differs from the
current page (when they are equal the page is already current and no call is
made — the same observable result); parse failure leaves the page unchanged,
logs the diagnostic and restores the label; Escape restores the label without
navigating. -/
theorem on_label_event_spec (text : String) (cur pages_number : Nat)
    (h : cur < pages_number) :
    on_label_event .escape text cur pages_number = ⟨cur, none, false, true⟩ ∧
    (py_int_chars (before_slash text) = none →
      on_label_event .ret text cur pages_number = ⟨cur, none, true, true⟩) ∧
    (∀ v : Int, py_int_chars (before_slash text) = some v →
      (on_label_event .ret text cur pages_number).current_page
          = clamp_index (v - 1) pages_number ∧
      (on_label_event .ret text cur pages_number).goto_arg
          = (if v - 1 = (cur : Int) then none
             else some (clamp_index (v - 1) pages_number)) ∧
      (on_label_event .ret text cur pages_number).logged = false ∧
      (on_label_event .ret text cur pages_number).label_restored = true) := by
  refine ⟨rfl, ?_, ?_⟩
  · intro hp
    simp [on_label_event, hp]
  · intro v hv
    by_cases hvc : v - 1 = (cur : Int)
    · have hclamp : clamp_index (cur : Int) pages_number = cur := by
        simp only [clamp_index]
        split_ifs <;> omega
      simp [on_label_event, hv, hvc, hclamp]
    · simp [on_label_event, hv, hvc, clamp_index]

/-- C7 (amended) witness: committing "7/50" on page 4 of 50 navigates to the
clamped index 6; committing "abc" leaves page 4, logs, and restores. -/
theorem on_label_event_spec_witness :
    (on_label_event .ret "7/50" 4 50).goto_arg = some (clamp_index (7 - 1) 50) ∧
    on_label_event .ret "abc" 4 50 = ⟨4, none, true, true⟩ :=
  ⟨by
    have h := ((on_label_event_spec "7/50" 4 50 (by decide)).2.2 7
      (by decide)).2.1
    rw [h]; decide,
   (on_label_event_spec "abc" 4 50 (by decide)).2.1 (by decide)⟩

/-- C8: on an unrealized widget (no backing GDK window) `render_page` does
skip the render, but the cache-miss path of `on_expose` then dereferences the
absent window to size and grab the pixbuf, raising an error — nothing is
cached, yet an error escapes instead of the claimed silent soft miss. -/
theorem on_expose_unrealized_raises :
    render_page none = none ∧
    on_expose_draw none none = Except.error "AttributeError" :=
  ⟨rfl, rfl⟩

/-- C9: a page change with unpause semantics clears `paused`, and sets
`start_time = now` only when `start_time == 0` — started timers are left
alone — so at any nonzero instant the operation is idempotent: repeating the
page change yields the same state as performing it once. -/
theorem on_page_change_timer_spec (now now2 : Int) (s : UIState)
    (h : ¬ now = 0) :
    (on_page_change_timer true now s).paused = false ∧
    (on_page_change_timer true now s).start_time
      = (if s.start_time = 0 then now else s.start_time) ∧
    (¬ s.start_time = 0 →
      (on_page_change_timer true now s).start_time = s.start_time) ∧
    on_page_change_timer true now2 (on_page_change_timer true now s)
      = on_page_change_timer true now s := by
  cases s with
  | mk nm wt p st d =>
    by_cases h0 : st = 0 <;> simp [on_page_change_timer, h0, h]

/-- C9 witness: first page change at time 100 on a never-started timer, a
repeat at time 200 changes nothing. -/
theorem on_page_change_timer_spec_witness :
    on_page_change_timer true 200
        (on_page_change_timer true 100 ⟨false, ⟨0, 0, 0⟩, true, 0, 0⟩)
      = on_page_change_timer true 100 ⟨false, ⟨0, 0, 0⟩, true, 0, 0⟩ :=
  (on_page_change_timer_spec 100 200 ⟨false, ⟨0, 0, 0⟩, true, 0, 0⟩
    (by decide)).2.2.2

/-- C10: `update_page_numbers` sets the next-slide label to "--" exactly when
the current page is the last one (`cur_nb + 2 > pages_number`); in every other
state both labels carry the identical string `(cur_nb+1)/pages_number`, and in
particular the next-slide label never displays the number of page
`cur_nb + 2`. -/
theorem update_page_numbers_spec (cur_nb pages_number : Nat) :
    ((update_page_numbers cur_nb pages_number).2 = "--" ↔
      pages_number < cur_nb + 2) ∧
    (cur_nb + 2 ≤ pages_number →
      (update_page_numbers cur_nb pages_number).2
        = (update_page_numbers cur_nb pages_number).1 ∧
      (update_page_numbers cur_nb pages_number).2
        ≠ page_label (cur_nb + 2) pages_number) := by
  constructor
  · constructor
    · intro h
      by_contra hlt
      push_neg at hlt
      simp only [update_page_numbers, if_pos hlt] at h
      exact page_label_ne_dashes _ _ h
    · intro h
      have : ¬ cur_nb + 2 ≤ pages_number := by omega
      simp [update_page_numbers, this]
  · intro h
    refine ⟨by simp [update_page_numbers, h], ?_⟩
    simp only [update_page_numbers, if_pos h]
    intro hcontra
    have := page_label_inj_left _ _ _ hcontra
    omega

/-- C10 witness: on page index 3 of 50 both labels read "4/50" and the
next-slide label does not read "5/50". -/
theorem update_page_numbers_spec_witness :
    (update_page_numbers 3 50).2 = (update_page_numbers 3 50).1 ∧
    (update_page_numbers 3 50).2 ≠ page_label 5 50 :=
  (update_page_numbers_spec 3 50).2 (by decide)

end Pympress
